import Mathlib

/-!
Verification of the Phazegen HGT detection-and-scoring engine.

Shallow embedding of `src/backend/app/app.py` (class `HGTRiskAnalyzer` and the
two POST endpoints) and of `src/backend/app/simple_hgt.py`
(class `SimplifiedHGTAnalyzer`).  Python strings become `String`, Python ints
become `Int`/`Nat`, Python floats (the confidence arithmetic, which the source
only ever builds from decimal literals, integer lengths and `min`) are modelled
exactly over `ℚ`, and the ambient clock / string hash consumed by the source
become explicit parameters.  The `re.finditer` pattern scans are embedded by an
executable backtracking matcher for exactly the pattern shapes occurring in the
catalog: literal runs, greedy `[ACGT]{n,}` repetitions and two-way literal
alternation, scanned left to right without overlap, as the Python engine does.

Note: the byte content of `app.py` is double-encoded UTF-8; the string literals
below reproduce the file's decoded codepoints exactly (hence the mojibake
character runs decorating the risk labels and advisories).
-/

namespace Phazegen

/-- Python `needle in haystack` on lists of characters: `needle` occurs as a
contiguous sublist of the haystack. -/
def subList (needle : List Char) : List Char → Bool
  | [] => needle.isEmpty
  | c :: tl => needle.isPrefixOf (c :: tl) || subList needle tl

/-- Python `needle in hay` for strings (contiguous substring test). -/
def pyContains (hay needle : String) : Bool :=
  subList needle.data hay.data

/-- Python `str.upper()` (ASCII case mapping suffices for the catalog). -/
def pyUpper (s : String) : String := String.mk (s.data.map Char.toUpper)

/-- Python `str.lower()` (ASCII case mapping suffices for the catalog). -/
def pyLower (s : String) : String := String.mk (s.data.map Char.toLower)

/-- Python `s.startswith(pre)`. -/
def pyStartsWith (s pre : String) : Bool := pre.data.isPrefixOf s.data

/-- Python `s.endswith(suf)`. -/
def pyEndsWith (s suf : String) : Bool := suf.data.isSuffixOf s.data

/-- Python `f"{n:06d}"` for a non-negative value. -/
def pad6 (n : Nat) : String :=
  let s := toString n
  String.mk (List.replicate (6 - s.length) '0') ++ s

/-! ## Pattern matching engine

The catalog of `app.py`/`simple_hgt.py` uses regexes of two shapes only:
a sequence of atoms, each a literal or a greedy `[ACGT]{n,}` repetition,
or an alternation of two literals (`CAGGTA|GTCCAT`).  All matching is done
with `re.IGNORECASE`. -/

/-- One regex atom of the pattern catalog. -/
inductive RAtom where
  /-- a literal string, e.g. `ATG` -/
  | lit (s : String)
  /-- greedy `[ACGT]\x7bn,\x7d`: at least `n` nucleotide characters -/
  | rep (n : Nat)
deriving DecidableEq, Repr

/-- A catalog pattern: a sequence of atoms, or an alternation of two literals. -/
inductive RPat where
  | seq (atoms : List RAtom)
  | alt (a b : String)
deriving DecidableEq, Repr

/-- Does the character belong to the class `[ACGT]` under `re.IGNORECASE`? -/
def isACGT (c : Char) : Bool :=
  let u := c.toUpper
  u == 'A' || u == 'C' || u == 'G' || u == 'T'

/-- Length of the longest prefix made of `[ACGT]` characters. -/
def leadRun : List Char → Nat
  | [] => 0
  | c :: tl => if isACGT c then leadRun tl + 1 else 0

/-- Case-insensitive "the pattern literal `pat` is a prefix of the text". -/
def litPref : List Char → List Char → Bool
  | [], _ => true
  | _ :: _, [] => false
  | a :: as, b :: bs => (a.toUpper == b.toUpper) && litPref as bs

/-- Greedy backtracking for a `[ACGT]\x7bn,\x7d` atom: `f` matches the
remainder of the pattern; try consuming `k` characters first, retry with
one fewer while the budget `d = k - n` lasts. -/
def repTry (f : List Char → Option Nat) (cs : List Char) (k : Nat) : Nat → Option Nat
  | 0 => (f (cs.drop k)).map (fun m => m + k)
  | d + 1 =>
    match f (cs.drop k) with
    | some m => some (m + k)
    | none => repTry f cs (k - 1) d

/-- Match a sequence of atoms at the head of the text; return the number of
characters consumed by the (backtracking-greedy, Python-style) match. -/
def matchA : List RAtom → List Char → Option Nat
  | [], _ => some 0
  | .lit s :: rest, cs =>
    if litPref s.data cs then
      (matchA rest (cs.drop s.data.length)).map (fun m => m + s.data.length)
    else none
  | .rep n :: rest, cs =>
    let run := leadRun cs
    if run < n then none else repTry (matchA rest) cs run (run - n)

/-- Match a whole pattern at the head of the text (Python alternation tries the
left literal first). -/
def matchPat (p : RPat) (cs : List Char) : Option Nat :=
  match p with
  | .seq atoms => matchA atoms cs
  | .alt a b =>
    match matchA [.lit a] cs with
    | some m => some m
    | none => matchA [.lit b] cs

/-- The scan loop of `re.finditer`: leftmost matches, non-overlapping, the
scan resuming after each match (empty matches advance by one position).
Returns the half-open `(start, end)` offset pairs, left to right.  The
first argument is a structural-recursion counter: every step strictly
shortens the text (by at least `max m 1 ≥ 1` characters after a match of
length `m`, by one otherwise), so a counter starting at the text's length
never reaches `0` with text left over, and the loop behaves exactly like
the unbounded scan. -/
def scanFrom : Nat → RPat → List Char → Nat → List (Nat × Nat)
  | 0, _, _, _ => []
  | fl + 1, p, cs, i =>
    match cs with
    | [] => []
    | c :: tl =>
      match matchPat p (c :: tl) with
      | some m =>
        (i, i + m) :: scanFrom fl p (tl.drop (max m 1 - 1)) (i + max m 1)
      | none => scanFrom fl p tl (i + 1)

/-- `re.finditer(pattern, s)` as the list of `(start, end)` spans. -/
def findIter (p : RPat) (s : String) : List (Nat × Nat) :=
  scanFrom s.data.length p s.data 0

/-- The substring of `s` spanned by the half-open range `[i, j)`
(`match.group()` of a span reported by `findIter`). -/
def strSub (s : String) (i j : Nat) : String :=
  String.mk ((s.data.drop i).take (j - i))

/-- `f a₀ ++ f a₁ ++ …`: the hit accumulation of the detector loops. -/
def concatMap (f : α → List β) : List α → List β
  | [] => []
  | a :: tl => f a ++ concatMap f tl

end Phazegen

namespace Phazegen

/-- Python slice-and-ellipsis display truncation
`g[:n] + '...' if len(g) > n else g`. -/
def pyTruncate (g : String) (n : Nat) : String :=
  if g.length > n then String.mk (g.data.take n) ++ "..." else g

namespace HGTRiskAnalyzer

/-- `self.patterns['plasmids']` of `app.py` (insertion order preserved). -/
def plasmid_patterns : List (String × RPat) :=
  [("IncF", .seq [.lit "ATG", .rep 15, .lit "AAA", .rep 10, .lit "TAA"]),
   ("IncI", .seq [.lit "ATG", .rep 12, .lit "GGT", .rep 8, .lit "TGA"]),
   ("RepA", .seq [.lit "ATG", .rep 18, .lit "CAG", .rep 9, .lit "TAA"]),
   ("ParA", .seq [.lit "ATG", .rep 10, .lit "TTC", .rep 7, .lit "TAG"])]

/-- `self.patterns['transposons']` of `app.py`. -/
def transposon_patterns : List (String × RPat) :=
  [("Tn5", .seq [.lit "ATG", .rep 20, .lit "CAT", .rep 10, .lit "TAA"]),
   ("IS3", .alt "CAGGTA" "GTCCAT"),
   ("IS5", .alt "GGTTAC" "CCAATG"),
   ("Tn3", .seq [.lit "ATG", .rep 15, .lit "GGA", .rep 8, .lit "TGA"])]

/-- `self.patterns['resistance']` of `app.py`. -/
def resistance_patterns : List (String × RPat) :=
  [("blaTEM", .seq [.lit "ATG", .rep 30, .lit "S", .rep 10]),
   ("blaCTX-M", .seq [.lit "ATG", .rep 28, .lit "CTX", .rep 12]),
   ("tetA", .seq [.lit "ATG", .rep 25, .lit "MFS", .rep 15, .lit "TAA"]),
   ("aac", .seq [.lit "ATG", .rep 20, .lit "AAC", .rep 10, .lit "TGA"]),
   ("mcr", .seq [.lit "ATG", .rep 18, .lit "MCR", .rep 12, .lit "TAA"])]

/-- `self.high_risk_plasmids` of `app.py` (no `IncN` in this copy). -/
def high_risk_plasmids : List String := ["IncF", "IncI", "IncA/C", "IncX"]

/-- `self.critical_genes` of `app.py`. -/
def critical_genes : List String := ["blaCTX-M", "mcr", "KPC", "NDM"]

/-- `_classify_transposon_family`. -/
def classify_transposon_family (name : String) : String :=
  if name = "IS3" then "IS3 family"
  else if name = "IS5" then "IS5 family"
  else if name = "Tn5" then "Tn5 family"
  else if name = "Tn3" then "Tn3 family"
  else "Unknown family"

/-- `_get_drug_class`. -/
def get_drug_class (gene_name : String) : String :=
  if gene_name = "blaTEM" then "Beta-lactams (Penicillins)"
  else if gene_name = "blaCTX-M" then "Beta-lactams (Cephalosporins)"
  else if gene_name = "tetA" then "Tetracyclines"
  else if gene_name = "aac" then "Aminoglycosides"
  else if gene_name = "mcr" then "Polymyxins (Colistin)"
  else "Multiple classes"

/-- One plasmid hit dict of `_detect_plasmids`. -/
structure PlasmidHit where
  replicon : String
  position : String
  confidence : ℚ
  sequence : String
  risk_category : String
deriving DecidableEq, Repr

/-- One transposon hit dict of `_detect_transposons`. -/
structure TransposonHit where
  name : String
  type : String
  position : String
  confidence : ℚ
  family : String
deriving DecidableEq, Repr

/-- One resistance-gene hit dict of `_detect_resistance`. -/
structure ResistanceHit where
  gene : String
  position : String
  confidence : ℚ
  drug_class : String
  risk_level : String
deriving DecidableEq, Repr

/-- The dict built for one match in `_detect_plasmids`: `g` is
`match.group()`, `i`/`j` are `match.start()`/`match.end()`. -/
def mkPlasmidHit (name g : String) (i j : Nat) : PlasmidHit :=
  { replicon := name
    position := toString i ++ "-" ++ toString j
    confidence := min ((0.8 : ℚ) + (g.length : ℚ) / 200) 0.95
    sequence := pyTruncate g 30
    risk_category := if name ∈ high_risk_plasmids then "High" else "Medium" }

/-- The dict built for one match in `_detect_transposons`. -/
def mkTransposonHit (name g : String) (i j : Nat) : TransposonHit :=
  { name := name
    type := if pyStartsWith name "IS" then "Insertion Sequence" else "Transposon"
    position := toString i ++ "-" ++ toString j
    confidence := min ((0.75 : ℚ) + (g.length : ℚ) / 150) 0.92
    family := classify_transposon_family name }

/-- The dict built for one match in `_detect_resistance`. -/
def mkResistanceHit (name g : String) (i j : Nat) : ResistanceHit :=
  { gene := name
    position := toString i ++ "-" ++ toString j
    confidence := min ((0.85 : ℚ) + (g.length : ℚ) / 180) 0.98
    drug_class := get_drug_class name
    risk_level := if name ∈ critical_genes then "Critical" else "High" }

/-- `_detect_plasmids`: all `finditer` matches of every plasmid rule. -/
def detect_plasmids (sequence : String) : List PlasmidHit :=
  concatMap (fun np =>
    (findIter np.2 sequence).map (fun ij =>
      mkPlasmidHit np.1 (strSub sequence ij.1 ij.2) ij.1 ij.2)) plasmid_patterns

/-- `_detect_transposons`. -/
def detect_transposons (sequence : String) : List TransposonHit :=
  concatMap (fun np =>
    (findIter np.2 sequence).map (fun ij =>
      mkTransposonHit np.1 (strSub sequence ij.1 ij.2) ij.1 ij.2)) transposon_patterns

/-- `_detect_resistance`. -/
def detect_resistance (sequence : String) : List ResistanceHit :=
  concatMap (fun np =>
    (findIter np.2 sequence).map (fun ij =>
      mkResistanceHit np.1 (strSub sequence ij.1 ij.2) ij.1 ij.2)) resistance_patterns

/-- The `results['detected_elements']` dict (virulence factors are
initialized to the empty list and never filled by this analyzer). -/
structure DetectedElements where
  plasmids : List PlasmidHit
  transposons : List TransposonHit
  resistance_genes : List ResistanceHit
  virulence_factors : List Unit
deriving DecidableEq, Repr

/-- The plasmid loop body of `_calculate_risk_score`. -/
def plasmid_step (score : Int) (p : PlasmidHit) : Int :=
  let score := score + 10
  let score := if p.risk_category = "High" then score + 15 else score
  if pyStartsWith p.replicon "Inc" then score + 5 else score

/-- The resistance-gene loop body of `_calculate_risk_score`. -/
def resistance_step (score : Int) (g : ResistanceHit) : Int :=
  let score := score + 15
  let score := if g.risk_level = "Critical" then score + 20 else score
  let score := if pyContains (pyLower g.drug_class) "carbapenem" then score + 25 else score
  if pyContains (pyLower g.drug_class) "colistin" then score + 30 else score

/-- `_calculate_risk_score`: additive accumulation, capped at 100. -/
def calculate_risk_score (elements : DetectedElements) : Int :=
  let score : Int := 0
  let score := elements.plasmids.foldl plasmid_step score
  let score := score + (elements.transposons.length : Int) * 8
  let score := elements.resistance_genes.foldl resistance_step score
  min score 100

/-- `_determine_risk_level` (the labels reproduce the double-encoded
emoji decorations byte-for-byte as found in `app.py`). -/
def determine_risk_level (score : Int) : String :=
  if score ≥ 75 then "ðŸ”´ CRITICAL"
  else if score ≥ 50 then "ðŸŸ  HIGH"
  else if score ≥ 30 then "ðŸŸ¡ MEDIUM"
  else if score ≥ 10 then "ðŸŸ¢ LOW"
  else "âšª MINIMAL"

end HGTRiskAnalyzer

end Phazegen

namespace Phazegen

namespace HGTRiskAnalyzer

/-- The `results['summary']` dict of `_create_summary`. -/
structure Summary where
  total_elements : Nat
  plasmid_count : Nat
  transposon_count : Nat
  resistance_count : Nat
  high_risk_plasmids : Nat
deriving DecidableEq, Repr

/-- The `results` dict built by `analyze_sequence`.  The `summary` key is
present only on the success path and the `error` key only on the failure
path, hence the `Option` fields. -/
structure AnalysisResults where
  sample_id : String
  sequence_length : Nat
  risk_score : Int
  risk_level : String
  detected_elements : DetectedElements
  warnings : List String
  recommendations : List String
  summary : Option Summary
  error : Option String
deriving DecidableEq, Repr

/-- `_generate_recommendations`, in source order (string literals reproduce
the file's double-encoded decorations). -/
def generate_recommendations (results : AnalysisResults) : List String :=
  let recommendations : List String := []
  let recommendations :=
    if results.risk_level = "ðŸ”´ CRITICAL" ∨ results.risk_level = "ðŸŸ  HIGH" then
      recommendations ++
        ["ðŸš¨ IMMEDIATE ACTION: High spread risk detected",
         "ðŸ“‹ Implement infection control measures",
         "ðŸŒ Report to surveillance authorities"]
    else recommendations
  let recommendations :=
    if results.detected_elements.resistance_genes.any (fun g => g.risk_level == "Critical") then
      recommendations ++ ["ðŸ’Š Critical resistance detected - review treatment protocols"]
    else recommendations
  let recommendations :=
    if results.detected_elements.plasmids.length > 0 then
      recommendations ++ ["ðŸ”„ Mobile genetic elements present - monitor for spread"]
    else recommendations
  let recommendations :=
    if results.detected_elements.transposons.length > 2 then
      recommendations ++ ["ðŸ§¬ High transposon activity - increased mobility potential"]
    else recommendations
  let recommendations :=
    if recommendations = [] then
      recommendations ++
        ["âœ… No significant HGT risk detected", "ðŸ”¬ Routine monitoring sufficient"]
    else recommendations
  recommendations ++ ["âš•ï¸ Consult with infection control specialist"]

/-- `_create_summary` (dict values iterate in insertion order). -/
def create_summary (results : AnalysisResults) : Summary :=
  { total_elements :=
      results.detected_elements.plasmids.length +
      results.detected_elements.transposons.length +
      results.detected_elements.resistance_genes.length +
      results.detected_elements.virulence_factors.length
    plasmid_count := results.detected_elements.plasmids.length
    transposon_count := results.detected_elements.transposons.length
    resistance_count := results.detected_elements.resistance_genes.length
    high_risk_plasmids :=
      (results.detected_elements.plasmids.filter
        (fun p => p.risk_category == "High")).length }

/-- The `results` dict as initialized at the top of `analyze_sequence`,
before the `try` block runs. -/
def init_results (filename : String) (seq_len : Nat) : AnalysisResults :=
  { sample_id := filename
    sequence_length := seq_len
    risk_score := 0
    risk_level := "Minimal"
    detected_elements := ⟨[], [], [], []⟩
    warnings := []
    recommendations := []
    summary := none
    error := none }

/-- The `try` block of `analyze_sequence`: detection, scoring, tier,
recommendations, summary, in source order over the initialized dict. -/
def analyze_body (sequence : String) (r0 : AnalysisResults) : AnalysisResults :=
  let els : DetectedElements :=
    { plasmids := detect_plasmids sequence
      transposons := detect_transposons sequence
      resistance_genes := detect_resistance sequence
      virulence_factors := [] }
  let score := calculate_risk_score els
  let r1 := { r0 with
    detected_elements := els
    risk_score := score
    risk_level := determine_risk_level score }
  let r2 := { r1 with recommendations := generate_recommendations r1 }
  { r2 with summary := some (create_summary r2) }

/-- The `except Exception` handler of `analyze_sequence`: an exception
outcome of the body is converted into an `error` entry plus a warning on
the initialized dict; a normal outcome is returned unchanged. -/
def run_analysis (r0 : AnalysisResults) : Except String AnalysisResults → AnalysisResults
  | .ok r => r
  | .error e =>
    { r0 with
      error := some e
      warnings := r0.warnings ++ ["Analysis error: " ++ e] }

/-- `HGTRiskAnalyzer.analyze_sequence`: uppercase, initialize, run the
(total, hence never-failing) body under the defensive handler. -/
def analyze_sequence (sequence filename : String) : AnalysisResults :=
  let s := pyUpper sequence
  let r0 := init_results filename s.length
  run_analysis r0 (.ok (analyze_body s r0))

end HGTRiskAnalyzer

namespace Api

open HGTRiskAnalyzer

/-- The JSON body of `POST /api/analyze` on success: the analysis dict
extended with the `analysis_id` and `timestamp` keys. -/
structure AnalyzeResponse where
  results : AnalysisResults
  analysis_id : String
  timestamp : String
deriving DecidableEq, Repr

/-- The JSON body of `POST /api/analyze/file` on success. -/
structure FileResponse where
  status : String
  filename : String
  results : AnalysisResults
deriving DecidableEq, Repr

/-- `POST /api/analyze` (`analyze_sequence` route).  `pyHash` stands for the
process-salted Python `hash` builtin; absent JSON keys yield the defaults of
`request_data.get`.  Errors are `(status code, detail)` pairs. -/
def analyze (pyHash : String → Int) (sequence filename : Option String) :
    Except (Nat × String) AnalyzeResponse :=
  let seq := sequence.getD ""
  let fn := filename.getD "unknown.fasta"
  if seq = "" then .error (400, "No sequence provided")
  else if seq.length < 20 then .error (400, "Sequence too short (minimum 20 characters)")
  else
    .ok { results := analyze_sequence seq fn
          analysis_id := "HGT" ++ pad6 ((pyHash seq).emod 1000000).toNat
          timestamp := "2024-01-01T00:00:00Z" }

/-- `POST /api/analyze/file` (`analyze_file` route).  The only validation is
the emptiness check; its `HTTPException(400)` is caught by the route's own
blanket `except Exception` and resurfaced as a 500.  No minimum-length check
exists on this path. -/
def analyze_file (content filename : Option String) :
    Except (Nat × String) FileResponse :=
  let c := content.getD ""
  let fn := filename.getD "uploaded.fasta"
  if c = "" then .error (500, "File analysis failed: 400: No file content provided")
  else
    .ok { status := "success"
          filename := fn
          results := analyze_sequence c fn }

end Api

end Phazegen

namespace Phazegen

namespace SimplifiedHGTAnalyzer

/-- `self.patterns` of `simple_hgt.py`: category name, then the rules of the
category, in insertion order.  Note the divergences from `app.py`: part of
the rule names differ (`repA`, `parA`, `tnpA`, `tnpR`), `blaCTX-M` is absent
and `blaTEM` carries a trailing `ESBL` literal. -/
def patterns : List (String × List (String × RPat)) :=
  [("plasmids",
    [("IncF", .seq [.lit "ATG", .rep 15, .lit "AAA", .rep 10, .lit "TAA"]),
     ("IncI", .seq [.lit "ATG", .rep 12, .lit "GGT", .rep 8, .lit "TGA"]),
     ("repA", .seq [.lit "ATG", .rep 18, .lit "CAG", .rep 9, .lit "TAA"]),
     ("parA", .seq [.lit "ATG", .rep 10, .lit "TTC", .rep 7, .lit "TAG"])]),
   ("transposons",
    [("tnpA", .seq [.lit "ATG", .rep 20, .lit "CAT", .rep 10, .lit "TAA"]),
     ("IS3", .alt "CAGGTA" "GTCCAT"),
     ("IS5", .alt "GGTTAC" "CCAATG"),
     ("tnpR", .seq [.lit "ATG", .rep 15, .lit "GGA", .rep 8, .lit "TGA"])]),
   ("resistance",
    [("blaTEM", .seq [.lit "ATG", .rep 30, .lit "S", .rep 10, .lit "ESBL"]),
     ("tetA", .seq [.lit "ATG", .rep 25, .lit "MFS", .rep 15, .lit "TAA"]),
     ("aac", .seq [.lit "ATG", .rep 20, .lit "AAC", .rep 10, .lit "TGA"]),
     ("mcr", .seq [.lit "ATG", .rep 18, .lit "MCR", .rep 12, .lit "TAA"])])]

/-- `category[:-1] if category.endswith('s') else category`. -/
def singularize (category : String) : String :=
  if pyEndsWith category "s" then String.mk category.data.dropLast else category

/-- One detection dict of `SimplifiedHGTAnalyzer.analyze`. -/
structure Detection where
  type : String
  name : String
  position : String
  confidence : ℚ
  sequence : String
deriving DecidableEq, Repr

/-- The detection loop of `analyze`: every category, every rule, every
`finditer` match, flattened in iteration order. -/
def detections_for (sequence : String) : List Detection :=
  concatMap (fun cat =>
    concatMap (fun nr =>
      (findIter nr.2 sequence).map (fun ij =>
        { type := singularize cat.1
          name := nr.1
          position := toString ij.1 ++ "-" ++ toString ij.2
          confidence :=
            min ((0.7 : ℚ) + ((strSub sequence ij.1 ij.2).length : ℚ) / 100) 0.95
          sequence := pyTruncate (strSub sequence ij.1 ij.2) 50 })) cat.2) patterns

/-- The loop body of `calculate_risk` (`int(...)` on the non-negative
confidence is a floor). -/
def risk_step (score : Int) (d : Detection) : Int :=
  let score :=
    if d.type = "plasmid" then
      score + 15 + (if d.name ∈ ["IncF", "IncI"] then 10 else 0)
    else if d.type = "transposon" then
      score + 10 + (if d.name ∈ ["tnpA", "tnpR"] then 5 else 0)
    else if d.type = "resistance" then
      score + 20 + (if d.name ∈ ["blaTEM", "mcr"] then 15 else 0)
    else score
  score + ⌊d.confidence * 10⌋

/-- `SimplifiedHGTAnalyzer.calculate_risk`. -/
def calculate_risk (detections : List Detection) : Int :=
  min (detections.foldl risk_step 0) 100

/-- `SimplifiedHGTAnalyzer.get_risk_level`: note the `70` cut for
Critical, against the `75` of `HGTRiskAnalyzer`. -/
def get_risk_level (score : Int) : String :=
  if score ≥ 70 then "Critical"
  else if score ≥ 50 then "High"
  else if score ≥ 30 then "Medium"
  else if score ≥ 10 then "Low"
  else "Minimal"

/-- `SimplifiedHGTAnalyzer.get_recommendations` (this file carries
well-formed emoji, reproduced literally). -/
def get_recommendations (detections : List Detection) (score : Int) : List String :=
  let recs : List String := []
  let recs :=
    if score ≥ 50 then
      recs ++ ["🚨 High spread risk detected - implement containment measures"]
    else recs
  let recs :=
    if detections.any (fun d => d.type == "plasmid") then
      recs ++ ["⚠️ Mobile genetic elements (plasmids) detected"]
    else recs
  let recs :=
    if detections.any (fun d => d.type == "resistance") then
      recs ++ ["💊 Antibiotic resistance genes present"]
    else recs
  let recs :=
    if detections.any (fun d => d.name == "mcr") then
      recs ++ ["🦠 Colistin resistance (mcr) detected - high clinical concern"]
    else recs
  let recs :=
    if recs = [] then recs ++ ["✅ No significant HGT risk elements detected"]
    else recs
  recs ++ ["🔬 Consider experimental validation for confirmation"]

/-- The result dict of `SimplifiedHGTAnalyzer.analyze` (the three
`detected_elements` sublists are inlined as fields). -/
structure SimpleResults where
  status : String
  detections : List Detection
  plasmids : List Detection
  transposons : List Detection
  resistance_genes : List Detection
  risk_score : Int
  risk_level : String
  sequence_length : Nat
  sample_id : String
  recommendations : List String
deriving DecidableEq, Repr

/-- `SimplifiedHGTAnalyzer.analyze`.  The source reads the ambient clock
(`datetime.now().timestamp()`) to build `sample_id`; that read is made an
explicit integer parameter `ts`. -/
def analyze (sequence : String) (ts : Int) : SimpleResults :=
  let s := pyUpper sequence
  let detections := detections_for s
  let risk_score := calculate_risk detections
  { status := "success"
    detections := detections
    plasmids := detections.filter (fun d => d.type == "plasmid")
    transposons := detections.filter (fun d => d.type == "transposon")
    resistance_genes := detections.filter (fun d => d.type == "resistance")
    risk_score := risk_score
    risk_level := get_risk_level risk_score
    sequence_length := s.length
    sample_id := "HGT-" ++ toString ts
    recommendations := get_recommendations detections risk_score }

end SimplifiedHGTAnalyzer

end Phazegen

namespace Phazegen

/-! ## Claim-side (specification) definitions

These definitions transcribe the claims' wording, to be compared with the
source-side functions above. -/

namespace Spec

open HGTRiskAnalyzer

/-- The claimed per-hit contribution of a plasmid hit: +10, +15 if the
replicon belongs to the fixed high-risk set (the `app.py` copy, without
the optional `IncN`), +5 if the rule name starts with `Inc`. -/
def plasmid_contribution (p : PlasmidHit) : Int :=
  10 + (if p.replicon ∈ ["IncF", "IncI", "IncA/C", "IncX"] then 15 else 0) +
    (if pyStartsWith p.replicon "Inc" then 5 else 0)

/-- The claimed per-hit contribution of a resistance-gene hit: +15, +20 for
a critical gene, +25 for a carbapenem drug class, +30 for a colistin drug
class (case-insensitive substring tests). -/
def resistance_contribution (g : ResistanceHit) : Int :=
  15 + (if g.gene ∈ ["blaCTX-M", "mcr", "KPC", "NDM"] then 20 else 0) +
    (if pyContains (pyLower g.drug_class) "carbapenem" then 25 else 0) +
    (if pyContains (pyLower g.drug_class) "colistin" then 30 else 0)

/-- The claimed risk score: the clamped-to-`[0,100]` sum of the per-hit
contributions, transposon hits counting +8 flat. -/
def claimed_score (e : DetectedElements) : Int :=
  max 0 (min ((e.plasmids.map plasmid_contribution).sum +
    (e.transposons.length : Int) * 8 +
    (e.resistance_genes.map resistance_contribution).sum) 100)

/-- A plasmid hit as the Scanner produces it: its `risk_category`
classification tag is derived from its replicon. -/
def WFPlasmid (p : PlasmidHit) : Prop :=
  p.risk_category = if p.replicon ∈ high_risk_plasmids then "High" else "Medium"

/-- A resistance-gene hit as the Scanner produces it: its `risk_level`
criticality flag is derived from its gene name. -/
def WFResistance (g : ResistanceHit) : Prop :=
  g.risk_level = if g.gene ∈ critical_genes then "Critical" else "High"

instance (p : PlasmidHit) : Decidable (WFPlasmid p) := by
  unfold WFPlasmid; infer_instance

instance (g : ResistanceHit) : Decidable (WFResistance g) := by
  unfold WFResistance; infer_instance

/-- The category-conditional advisories of recommendation steps 1-4. -/
def category_advisories (r : HGTRiskAnalyzer.AnalysisResults) : List String :=
  (if r.risk_level = "ðŸ”´ CRITICAL" ∨ r.risk_level = "ðŸŸ  HIGH" then
    ["ðŸš¨ IMMEDIATE ACTION: High spread risk detected",
     "ðŸ“‹ Implement infection control measures",
     "ðŸŒ Report to surveillance authorities"]
  else []) ++
  (if r.detected_elements.resistance_genes.any (fun g => g.risk_level == "Critical") then
    ["ðŸ’Š Critical resistance detected - review treatment protocols"]
  else []) ++
  (if r.detected_elements.plasmids.length > 0 then
    ["ðŸ”„ Mobile genetic elements present - monitor for spread"]
  else []) ++
  (if r.detected_elements.transposons.length > 2 then
    ["ðŸ§¬ High transposon activity - increased mobility potential"]
  else [])

end Spec

/-! ## Example inputs for the witnesses -/

/-- A sequence matched (wholly) by the `IncF` plasmid rule and by no other
rule of `app.py`'s catalog. -/
def exampleIncF : String := "ATGACGTACGTACGTACGAAAACGTACGTACTAA"

/-- A sequence matched by the `IS3` transposon rule only. -/
def exampleIS3 : String := "CAGGTA"

/-- A sequence matched (wholly) by the `aac` resistance rule and by no
other rule of `app.py`'s catalog. -/
def exampleAac : String := "ATGACGTACGTACGTACGTACGTAACACGTACGTACTGA"

/-- A concrete detected-elements value with one hit per category, each
built by its hit constructor. -/
def exampleElements : HGTRiskAnalyzer.DetectedElements :=
  { plasmids := [HGTRiskAnalyzer.mkPlasmidHit "IncF" exampleIncF 0 34]
    transposons := [HGTRiskAnalyzer.mkTransposonHit "IS3" "CAGGTA" 0 6]
    resistance_genes := [HGTRiskAnalyzer.mkResistanceHit "mcr" "ATGACGT" 0 7]
    virulence_factors := [] }

/-- Two plasmid hits used to exhibit permutation invariance. -/
def examplePlasmidA : HGTRiskAnalyzer.PlasmidHit :=
  HGTRiskAnalyzer.mkPlasmidHit "IncF" "AAA" 0 3

/-- Second plasmid hit for the permutation example. -/
def examplePlasmidB : HGTRiskAnalyzer.PlasmidHit :=
  HGTRiskAnalyzer.mkPlasmidHit "ParA" "AAAA" 0 4

end Phazegen

namespace Phazegen

/-! ## Helper lemmas -/

theorem mem_concatMap {f : α → List β} {l : List α} {b : β} :
    b ∈ concatMap f l ↔ ∃ a ∈ l, b ∈ f a := by
  induction l with
  | nil => simp [concatMap]
  | cons a tl ih => simp [concatMap, ih]

theorem foldl_add_eq (step : Int → α → Int) (f : α → Int)
    (hstep : ∀ a x, step a x = a + f x) :
    ∀ (l : List α) (acc : Int), l.foldl step acc = acc + (l.map f).sum := by
  intro l
  induction l with
  | nil => intro acc; simp
  | cons x tl ih =>
    intro acc
    simp only [List.foldl_cons, List.map_cons, List.sum_cons, ih, hstep]
    ring

namespace HGTRiskAnalyzer

theorem plasmid_step_zero (a : Int) (p : PlasmidHit) :
    plasmid_step a p = a + plasmid_step 0 p := by
  simp only [plasmid_step]
  split_ifs <;> ring

theorem resistance_step_zero (a : Int) (g : ResistanceHit) :
    resistance_step a g = a + resistance_step 0 g := by
  simp only [resistance_step]
  split_ifs <;> ring

/-- The scorer is the clamped sum of the code's per-hit contributions. -/
theorem score_decomp (e : DetectedElements) :
    calculate_risk_score e =
      min ((e.plasmids.map (plasmid_step 0)).sum +
        (e.transposons.length : Int) * 8 +
        (e.resistance_genes.map (resistance_step 0)).sum) 100 := by
  simp only [calculate_risk_score]
  rw [foldl_add_eq plasmid_step (plasmid_step 0) plasmid_step_zero,
      foldl_add_eq resistance_step (resistance_step 0) resistance_step_zero]
  ring_nf

theorem plasmid_step_zero_nonneg (p : PlasmidHit) : 0 ≤ plasmid_step 0 p := by
  simp only [plasmid_step]
  split_ifs <;> omega

theorem resistance_step_zero_nonneg (g : ResistanceHit) : 0 ≤ resistance_step 0 g := by
  simp only [resistance_step]
  split_ifs <;> omega

theorem contrib_sum_nonneg (e : DetectedElements) :
    0 ≤ (e.plasmids.map (plasmid_step 0)).sum +
      (e.transposons.length : Int) * 8 +
      (e.resistance_genes.map (resistance_step 0)).sum := by
  have h1 : 0 ≤ (e.plasmids.map (plasmid_step 0)).sum := by
    apply List.sum_nonneg
    intro x hx
    obtain ⟨p, _, rfl⟩ := List.mem_map.mp hx
    exact plasmid_step_zero_nonneg p
  have h2 : 0 ≤ (e.resistance_genes.map (resistance_step 0)).sum := by
    apply List.sum_nonneg
    intro x hx
    obtain ⟨g, _, rfl⟩ := List.mem_map.mp hx
    exact resistance_step_zero_nonneg g
  have h3 : (0 : Int) ≤ (e.transposons.length : Int) * 8 := by positivity
  omega

/-- Every plasmid hit of the detector is built by `mkPlasmidHit`. -/
theorem detect_plasmids_shape {sequence : String} {h : PlasmidHit}
    (hm : h ∈ detect_plasmids sequence) :
    ∃ name g i j, h = mkPlasmidHit name g i j := by
  obtain ⟨np, _, hm2⟩ := mem_concatMap.mp hm
  obtain ⟨ij, _, rfl⟩ := List.mem_map.mp hm2
  exact ⟨np.1, strSub sequence ij.1 ij.2, ij.1, ij.2, rfl⟩

/-- Every transposon hit of the detector is built by `mkTransposonHit`. -/
theorem detect_transposons_shape {sequence : String} {h : TransposonHit}
    (hm : h ∈ detect_transposons sequence) :
    ∃ name g i j, h = mkTransposonHit name g i j := by
  obtain ⟨np, _, hm2⟩ := mem_concatMap.mp hm
  obtain ⟨ij, _, rfl⟩ := List.mem_map.mp hm2
  exact ⟨np.1, strSub sequence ij.1 ij.2, ij.1, ij.2, rfl⟩

/-- Every resistance hit of the detector is built by `mkResistanceHit`. -/
theorem detect_resistance_shape {sequence : String} {h : ResistanceHit}
    (hm : h ∈ detect_resistance sequence) :
    ∃ name g i j, h = mkResistanceHit name g i j := by
  obtain ⟨np, _, hm2⟩ := mem_concatMap.mp hm
  obtain ⟨ij, _, rfl⟩ := List.mem_map.mp hm2
  exact ⟨np.1, strSub sequence ij.1 ij.2, ij.1, ij.2, rfl⟩

end HGTRiskAnalyzer

/-- `base ≤ min (base + x) cap ≤ cap` for non-negative `x` and `base ≤ cap`. -/
theorem confidence_band_aux {base cap x : ℚ} (hx : 0 ≤ x) (hbc : base ≤ cap) :
    base ≤ min (base + x) cap ∧ min (base + x) cap ≤ cap :=
  ⟨le_min (by linarith) hbc, min_le_right _ _⟩

end Phazegen

namespace Phazegen

/-! ## Claim theorems -/

open HGTRiskAnalyzer in
/-- C1: for every collection of hits (carrying the classification tags the
Scanner derives for them), the risk score equals the clamped sum of per-hit
contributions: each plasmid hit contributes +10, +15 if its replicon is in
the fixed high-risk set, +5 if its rule name starts with `Inc`; each
transposon hit contributes exactly +8; each resistance-gene hit contributes
+15, +20 if its criticality flag is set, +25 for a carbapenem drug class,
+30 for a colistin drug class (case-insensitive substring tests). -/
theorem risk_score_formula (e : DetectedElements)
    (hp : ∀ p ∈ e.plasmids, Spec.WFPlasmid p)
    (hr : ∀ g ∈ e.resistance_genes, Spec.WFResistance g) :
    calculate_risk_score e = Spec.claimed_score e := by
  have hmap1 : e.plasmids.map (plasmid_step 0) = e.plasmids.map Spec.plasmid_contribution := by
    apply List.map_congr_left
    intro p hpm
    have hw := hp p hpm
    unfold Spec.WFPlasmid at hw
    simp only [plasmid_step, Spec.plasmid_contribution, high_risk_plasmids] at hw ⊢
    rw [hw]
    split_ifs <;> simp_all
  have hmap2 : e.resistance_genes.map (resistance_step 0) =
      e.resistance_genes.map Spec.resistance_contribution := by
    apply List.map_congr_left
    intro g hgm
    have hw := hr g hgm
    unfold Spec.WFResistance at hw
    simp only [resistance_step, Spec.resistance_contribution, critical_genes] at hw ⊢
    rw [hw]
    split_ifs <;> simp_all
  rw [score_decomp, hmap1, hmap2]
  unfold Spec.claimed_score
  rw [max_eq_right]
  exact le_min (by rw [← hmap1, ← hmap2]; exact contrib_sum_nonneg e) (by norm_num)

/-- Witness for C1 at a one-hit-per-category collection (score saturates
at 100 there). -/
theorem risk_score_formula_witness :
    (∀ p ∈ exampleElements.plasmids, Spec.WFPlasmid p) ∧
    (∀ g ∈ exampleElements.resistance_genes, Spec.WFResistance g) ∧
    HGTRiskAnalyzer.calculate_risk_score exampleElements = Spec.claimed_score exampleElements :=
  ⟨by decide, by decide, risk_score_formula exampleElements (by decide) (by decide)⟩

open HGTRiskAnalyzer SimplifiedHGTAnalyzer in
/-- C2 counterexample: the claim's tier table gives High for a score of 70
(since 70 < 75), but `simple_hgt.py`'s `get_risk_level` returns Critical
at 70. -/
theorem risk_tier_counterexample :
    SimplifiedHGTAnalyzer.get_risk_level 70 = "Critical" ∧
    ¬ (75 ≤ (70 : Int)) ∧ "Critical" ≠ "High" :=
  ⟨rfl, by decide, by decide⟩

/-- C2 (amended): both tier mappings are pure step functions with
lower-inclusive boundaries, but with different Critical cuts:
`app.py`'s `_determine_risk_level` uses 75/50/30/10 (with decorated
labels), while `simple_hgt.py`'s `get_risk_level` uses 70/50/30/10. -/
theorem risk_tier_table (s : Int) :
    (75 ≤ s → HGTRiskAnalyzer.determine_risk_level s = "ðŸ”´ CRITICAL") ∧
    (50 ≤ s ∧ s < 75 → HGTRiskAnalyzer.determine_risk_level s = "ðŸŸ  HIGH") ∧
    (30 ≤ s ∧ s < 50 → HGTRiskAnalyzer.determine_risk_level s = "ðŸŸ¡ MEDIUM") ∧
    (10 ≤ s ∧ s < 30 → HGTRiskAnalyzer.determine_risk_level s = "ðŸŸ¢ LOW") ∧
    (s < 10 → HGTRiskAnalyzer.determine_risk_level s = "âšª MINIMAL") ∧
    (70 ≤ s → SimplifiedHGTAnalyzer.get_risk_level s = "Critical") ∧
    (50 ≤ s ∧ s < 70 → SimplifiedHGTAnalyzer.get_risk_level s = "High") ∧
    (30 ≤ s ∧ s < 50 → SimplifiedHGTAnalyzer.get_risk_level s = "Medium") ∧
    (10 ≤ s ∧ s < 30 → SimplifiedHGTAnalyzer.get_risk_level s = "Low") ∧
    (s < 10 → SimplifiedHGTAnalyzer.get_risk_level s = "Minimal") := by
  unfold HGTRiskAnalyzer.determine_risk_level SimplifiedHGTAnalyzer.get_risk_level
  refine ⟨?_, ?_, ?_, ?_, ?_, ?_, ?_, ?_, ?_, ?_⟩ <;> intro h
  all_goals split_ifs <;> first | rfl | omega

/-- Witness for C2 (amended) at one score per tier band of each mapping. -/
theorem risk_tier_table_witness :
    HGTRiskAnalyzer.determine_risk_level 80 = "ðŸ”´ CRITICAL" ∧
    HGTRiskAnalyzer.determine_risk_level 60 = "ðŸŸ  HIGH" ∧
    HGTRiskAnalyzer.determine_risk_level 40 = "ðŸŸ¡ MEDIUM" ∧
    HGTRiskAnalyzer.determine_risk_level 15 = "ðŸŸ¢ LOW" ∧
    HGTRiskAnalyzer.determine_risk_level 5 = "âšª MINIMAL" ∧
    SimplifiedHGTAnalyzer.get_risk_level 72 = "Critical" ∧
    SimplifiedHGTAnalyzer.get_risk_level 60 = "High" ∧
    SimplifiedHGTAnalyzer.get_risk_level 40 = "Medium" ∧
    SimplifiedHGTAnalyzer.get_risk_level 15 = "Low" ∧
    SimplifiedHGTAnalyzer.get_risk_level 5 = "Minimal" :=
  ⟨(risk_tier_table 80).1 (by decide),
   (risk_tier_table 60).2.1 ⟨by decide, by decide⟩,
   (risk_tier_table 40).2.2.1 ⟨by decide, by decide⟩,
   (risk_tier_table 15).2.2.2.1 ⟨by decide, by decide⟩,
   (risk_tier_table 5).2.2.2.2.1 (by decide),
   (risk_tier_table 72).2.2.2.2.2.1 (by decide),
   (risk_tier_table 60).2.2.2.2.2.2.1 ⟨by decide, by decide⟩,
   (risk_tier_table 40).2.2.2.2.2.2.2.1 ⟨by decide, by decide⟩,
   (risk_tier_table 15).2.2.2.2.2.2.2.2.1 ⟨by decide, by decide⟩,
   (risk_tier_table 5).2.2.2.2.2.2.2.2.2 (by decide)⟩

/-- C3: for every collection of hits, the risk score is an integer in the
closed interval `[0, 100]`. -/
theorem risk_score_bounds (e : HGTRiskAnalyzer.DetectedElements) :
    0 ≤ HGTRiskAnalyzer.calculate_risk_score e ∧
    HGTRiskAnalyzer.calculate_risk_score e ≤ 100 := by
  rw [HGTRiskAnalyzer.score_decomp]
  exact ⟨le_min (HGTRiskAnalyzer.contrib_sum_nonneg e) (by norm_num), min_le_right _ _⟩

/-- C7: the risk score is invariant under permutation of each category's
hit collection. -/
theorem risk_score_perm_invariant (e e' : HGTRiskAnalyzer.DetectedElements)
    (h1 : e.plasmids.Perm e'.plasmids)
    (h2 : e.transposons.Perm e'.transposons)
    (h3 : e.resistance_genes.Perm e'.resistance_genes) :
    HGTRiskAnalyzer.calculate_risk_score e = HGTRiskAnalyzer.calculate_risk_score e' := by
  rw [HGTRiskAnalyzer.score_decomp, HGTRiskAnalyzer.score_decomp,
    (h1.map _).sum_eq, h2.length_eq, (h3.map _).sum_eq]

/-- Witness for C7: swapping two plasmid hits leaves the score unchanged. -/
theorem risk_score_perm_invariant_witness :
    HGTRiskAnalyzer.calculate_risk_score ⟨[examplePlasmidA, examplePlasmidB], [], [], []⟩ =
    HGTRiskAnalyzer.calculate_risk_score ⟨[examplePlasmidB, examplePlasmidA], [], [], []⟩ :=
  risk_score_perm_invariant _ _ (List.Perm.swap examplePlasmidB examplePlasmidA [])
    (List.Perm.refl _) (List.Perm.refl _)

end Phazegen

namespace Phazegen

open HGTRiskAnalyzer in
/-- C4 counterexample: with no hits and tier Minimal, steps 1-4 append
nothing, yet the output carries TWO advisories before the closing one (the
no-risk message and a separate routine-monitoring message), not a single
no-significant-risk advisory. -/
theorem recommendations_counterexample :
    generate_recommendations (init_results "sample" 44) =
      ["âœ… No significant HGT risk detected",
       "ðŸ”¬ Routine monitoring sufficient",
       "âš•ï¸ Consult with infection control specialist"] ∧
    (generate_recommendations (init_results "sample" 44)).length ≠ 2 :=
  ⟨rfl, by decide⟩

open HGTRiskAnalyzer in
/-- C4 (amended): the recommendation list is exactly the advisories of
steps 1-4 (three for tier Critical/High, one per further condition), with
TWO advisories (no-significant-risk and routine-monitoring) substituted
when steps 1-4 appended nothing — so the no-risk message and the
category-specific advisories remain mutually exclusive — and the closing
consult-a-specialist advisory unconditionally last. -/
theorem recommendations_policy (r : AnalysisResults) :
    generate_recommendations r =
      (if Spec.category_advisories r = [] then
        ["âœ… No significant HGT risk detected",
         "ðŸ”¬ Routine monitoring sufficient"]
      else Spec.category_advisories r) ++
      ["âš•ï¸ Consult with infection control specialist"] := by
  simp only [generate_recommendations, Spec.category_advisories]
  split_ifs <;> simp_all

open HGTRiskAnalyzer in
/-- C5 counterexample: `POST /api/analyze/file` accepts an 8-character
sequence, runs the analysis, and constructs a full result for it (summary
present, sample identifier set) — no minimum-length rejection happens on
this entry point. -/
theorem boundary_counterexample :
    ("ACGTACGT" : String).length < 20 ∧
    Api.analyze_file (some "ACGTACGT") (some "short.fasta") =
      .ok ⟨"success", "short.fasta", analyze_sequence "ACGTACGT" "short.fasta"⟩ ∧
    (analyze_sequence "ACGTACGT" "short.fasta").summary.isSome = true ∧
    (analyze_sequence "ACGTACGT" "short.fasta").sample_id = "short.fasta" :=
  ⟨by decide, rfl, by decide, by decide⟩

open HGTRiskAnalyzer in
/-- C5 (amended): `POST /api/analyze` rejects an empty sequence and a
sequence shorter than 20 characters with a 400 client error before any
analysis; `POST /api/analyze/file` only rejects empty content (surfaced as
a 500 by its blanket handler) and analyzes every non-empty content,
however short. -/
theorem boundary_validation (pyHash : String → Int) (sequence filename : Option String) :
    (sequence.getD "" = "" →
      Api.analyze pyHash sequence filename = .error (400, "No sequence provided")) ∧
    (sequence.getD "" ≠ "" → (sequence.getD "").length < 20 →
      Api.analyze pyHash sequence filename =
        .error (400, "Sequence too short (minimum 20 characters)")) ∧
    (∀ content fn2, content ≠ ("" : String) →
      Api.analyze_file (some content) fn2 =
        .ok ⟨"success", fn2.getD "uploaded.fasta",
          analyze_sequence content (fn2.getD "uploaded.fasta")⟩) := by
  refine ⟨?_, ?_, ?_⟩
  · intro h
    simp [Api.analyze, h]
  · intro h1 h2
    simp [Api.analyze, h1, h2]
  · intro c fn2 hc
    simp [Api.analyze_file, hc]

/-- Witness for C5 (amended) at concrete requests. -/
theorem boundary_validation_witness :
    Api.analyze (fun _ => 37) (some "") none = .error (400, "No sequence provided") ∧
    Api.analyze (fun _ => 37) (some "ACGT") none =
      .error (400, "Sequence too short (minimum 20 characters)") ∧
    Api.analyze_file (some "ACGT") none =
      .ok ⟨"success", "uploaded.fasta",
        HGTRiskAnalyzer.analyze_sequence "ACGT" "uploaded.fasta"⟩ :=
  ⟨(boundary_validation (fun _ => 37) (some "") none).1 (by decide),
   (boundary_validation (fun _ => 37) (some "ACGT") none).2.1 (by decide) (by decide),
   (boundary_validation (fun _ => 37) (some "x") none).2.2 "ACGT" none (by decide)⟩

open SimplifiedHGTAnalyzer in
/-- C6 counterexample: two runs of `simple_hgt.py`'s `analyze` on the same
sequence at different clock readings yield different results — the
`sample_id` embeds the timestamp. -/
theorem determinism_counterexample :
    (SimplifiedHGTAnalyzer.analyze "AAAAAAAAAAAAAAAAAAAA" 0).sample_id = "HGT-0" ∧
    (SimplifiedHGTAnalyzer.analyze "AAAAAAAAAAAAAAAAAAAA" 1).sample_id = "HGT-1" ∧
    SimplifiedHGTAnalyzer.analyze "AAAAAAAAAAAAAAAAAAAA" 0 ≠
      SimplifiedHGTAnalyzer.analyze "AAAAAAAAAAAAAAAAAAAA" 1 :=
  ⟨by decide, by decide, by decide⟩

open SimplifiedHGTAnalyzer in
/-- C6 (amended): `app.py`'s `analyze_sequence` is a pure function of
(sequence, filename), so reruns coincide; `simple_hgt.py`'s `analyze`
depends on the ambient clock only through its `sample_id` field: runs at
different clock readings agree on every other field, and `sample_id` is
exactly `HGT-` followed by the timestamp. -/
theorem determinism_modulo_clock (sequence : String) (t1 t2 : Int) :
    (SimplifiedHGTAnalyzer.analyze sequence t1).status =
      (SimplifiedHGTAnalyzer.analyze sequence t2).status ∧
    (SimplifiedHGTAnalyzer.analyze sequence t1).detections =
      (SimplifiedHGTAnalyzer.analyze sequence t2).detections ∧
    (SimplifiedHGTAnalyzer.analyze sequence t1).plasmids =
      (SimplifiedHGTAnalyzer.analyze sequence t2).plasmids ∧
    (SimplifiedHGTAnalyzer.analyze sequence t1).transposons =
      (SimplifiedHGTAnalyzer.analyze sequence t2).transposons ∧
    (SimplifiedHGTAnalyzer.analyze sequence t1).resistance_genes =
      (SimplifiedHGTAnalyzer.analyze sequence t2).resistance_genes ∧
    (SimplifiedHGTAnalyzer.analyze sequence t1).risk_score =
      (SimplifiedHGTAnalyzer.analyze sequence t2).risk_score ∧
    (SimplifiedHGTAnalyzer.analyze sequence t1).risk_level =
      (SimplifiedHGTAnalyzer.analyze sequence t2).risk_level ∧
    (SimplifiedHGTAnalyzer.analyze sequence t1).sequence_length =
      (SimplifiedHGTAnalyzer.analyze sequence t2).sequence_length ∧
    (SimplifiedHGTAnalyzer.analyze sequence t1).recommendations =
      (SimplifiedHGTAnalyzer.analyze sequence t2).recommendations ∧
    (SimplifiedHGTAnalyzer.analyze sequence t1).sample_id = "HGT-" ++ toString t1 ∧
    (∀ s f : String,
      HGTRiskAnalyzer.analyze_sequence s f = HGTRiskAnalyzer.analyze_sequence s f) :=
  ⟨rfl, rfl, rfl, rfl, rfl, rfl, rfl, rfl, rfl, rfl, fun _ _ => rfl⟩

end Phazegen

namespace Phazegen

open HGTRiskAnalyzer in
/-- C8: every hit produced by the scanner carries the confidence
`min (base + matched_length / scale, cap)` over its matched substring `g`,
with the per-category constants: plasmid 0.80/200/0.95, transposon
0.75/150/0.92, resistance 0.85/180/0.98. -/
theorem scanner_confidence_formula (sequence : String) :
    (∀ h ∈ detect_plasmids sequence, ∃ name g i j, h = mkPlasmidHit name g i j ∧
      h.confidence = min ((0.8 : ℚ) + (g.length : ℚ) / 200) 0.95) ∧
    (∀ h ∈ detect_transposons sequence, ∃ name g i j, h = mkTransposonHit name g i j ∧
      h.confidence = min ((0.75 : ℚ) + (g.length : ℚ) / 150) 0.92) ∧
    (∀ h ∈ detect_resistance sequence, ∃ name g i j, h = mkResistanceHit name g i j ∧
      h.confidence = min ((0.85 : ℚ) + (g.length : ℚ) / 180) 0.98) := by
  refine ⟨fun h hm => ?_, fun h hm => ?_, fun h hm => ?_⟩
  · obtain ⟨name, g, i, j, rfl⟩ := detect_plasmids_shape hm
    exact ⟨name, g, i, j, rfl, rfl⟩
  · obtain ⟨name, g, i, j, rfl⟩ := detect_transposons_shape hm
    exact ⟨name, g, i, j, rfl, rfl⟩
  · obtain ⟨name, g, i, j, rfl⟩ := detect_resistance_shape hm
    exact ⟨name, g, i, j, rfl, rfl⟩

open HGTRiskAnalyzer in
/-- Witness for C8 at one concrete scanner hit per category. -/
theorem scanner_confidence_formula_witness :
    (∃ name g i j, mkPlasmidHit "IncF" exampleIncF 0 34 = mkPlasmidHit name g i j ∧
      (mkPlasmidHit "IncF" exampleIncF 0 34).confidence =
        min ((0.8 : ℚ) + (g.length : ℚ) / 200) 0.95) ∧
    (∃ name g i j, mkTransposonHit "IS3" "CAGGTA" 0 6 = mkTransposonHit name g i j ∧
      (mkTransposonHit "IS3" "CAGGTA" 0 6).confidence =
        min ((0.75 : ℚ) + (g.length : ℚ) / 150) 0.92) ∧
    (∃ name g i j, mkResistanceHit "aac" exampleAac 0 39 = mkResistanceHit name g i j ∧
      (mkResistanceHit "aac" exampleAac 0 39).confidence =
        min ((0.85 : ℚ) + (g.length : ℚ) / 180) 0.98) :=
  ⟨(scanner_confidence_formula exampleIncF).1 _ (by exact List.Mem.head _),
   (scanner_confidence_formula exampleIS3).2.1 _ (by exact List.Mem.head _),
   (scanner_confidence_formula exampleAac).2.2 _ (by exact List.Mem.head _)⟩

open HGTRiskAnalyzer in
/-- C9: the core analysis function is total: for every input string and
filename it returns a result carrying the sample identifier and the input
sequence length (with integer risk score and risk level fields); and the
defensive handler converts any exception outcome of the body into a
partial result with the `error` field and a warning set, keeping risk
score 0 and risk level Minimal from initialization, instead of
propagating. -/
theorem analyze_total_and_fault_handling :
    (∀ sequence filename : String,
      (analyze_sequence sequence filename).sample_id = filename ∧
      (analyze_sequence sequence filename).sequence_length = (pyUpper sequence).length) ∧
    (∀ (r0 : AnalysisResults) (e : String),
      run_analysis r0 (.error e) =
        { r0 with error := some e, warnings := r0.warnings ++ ["Analysis error: " ++ e] }) ∧
    (∀ (filename : String) (n : Nat) (e : String),
      (run_analysis (init_results filename n) (.error e)).risk_score = 0 ∧
      (run_analysis (init_results filename n) (.error e)).risk_level = "Minimal" ∧
      (run_analysis (init_results filename n) (.error e)).error = some e ∧
      (run_analysis (init_results filename n) (.error e)).warnings = ["Analysis error: " ++ e] ∧
      (run_analysis (init_results filename n) (.error e)).sample_id = filename) :=
  ⟨fun _ _ => ⟨rfl, rfl⟩, fun _ _ => rfl, fun _ _ _ => ⟨rfl, rfl, rfl, rfl, rfl⟩⟩

open HGTRiskAnalyzer in
/-- C10: every hit produced by the scanner has its confidence inside the
closed per-category band: plasmids in `[0.80, 0.95]`, transposons in
`[0.75, 0.92]`, resistance genes in `[0.85, 0.98]`. -/
theorem scanner_confidence_band (sequence : String) :
    (∀ h ∈ detect_plasmids sequence,
      (0.8 : ℚ) ≤ h.confidence ∧ h.confidence ≤ 0.95) ∧
    (∀ h ∈ detect_transposons sequence,
      (0.75 : ℚ) ≤ h.confidence ∧ h.confidence ≤ 0.92) ∧
    (∀ h ∈ detect_resistance sequence,
      (0.85 : ℚ) ≤ h.confidence ∧ h.confidence ≤ 0.98) := by
  refine ⟨fun h hm => ?_, fun h hm => ?_, fun h hm => ?_⟩
  · obtain ⟨name, g, i, j, rfl⟩ := detect_plasmids_shape hm
    exact confidence_band_aux (by positivity) (by norm_num)
  · obtain ⟨name, g, i, j, rfl⟩ := detect_transposons_shape hm
    exact confidence_band_aux (by positivity) (by norm_num)
  · obtain ⟨name, g, i, j, rfl⟩ := detect_resistance_shape hm
    exact confidence_band_aux (by positivity) (by norm_num)

open HGTRiskAnalyzer in
/-- Witness for C10 at one concrete scanner hit per category. -/
theorem scanner_confidence_band_witness :
    ((0.8 : ℚ) ≤ (mkPlasmidHit "IncF" exampleIncF 0 34).confidence ∧
      (mkPlasmidHit "IncF" exampleIncF 0 34).confidence ≤ 0.95) ∧
    ((0.75 : ℚ) ≤ (mkTransposonHit "IS3" "CAGGTA" 0 6).confidence ∧
      (mkTransposonHit "IS3" "CAGGTA" 0 6).confidence ≤ 0.92) ∧
    ((0.85 : ℚ) ≤ (mkResistanceHit "aac" exampleAac 0 39).confidence ∧
      (mkResistanceHit "aac" exampleAac 0 39).confidence ≤ 0.98) :=
  ⟨(scanner_confidence_band exampleIncF).1 _ (by exact List.Mem.head _),
   (scanner_confidence_band exampleIS3).2.1 _ (by exact List.Mem.head _),
   (scanner_confidence_band exampleAac).2.2 _ (by exact List.Mem.head _)⟩

end Phazegen
